import Mathlib

/-!
Shallow embedding of the `new-bot` repository (files `bot.py` and
`generate_video_list.py`) for checking its natural-language specification.

Conventions of the embedding:
* Python `None`-returning fallible functions become `Option`-valued Lean
  functions.
* Randomness (`random.choice`, `random.uniform`, `random.sample`) is made
  explicit: each random draw is a parameter (`Nat` index stream or a rational
  `r` in `[0,1]`).
* Network and subprocess effects are parameters describing their observable
  outcome (HTTP attempt results, transcoder return code, downloaded size).
* The filesystem is a list of file paths threaded through the functions that
  create or delete files.
* Python floats (durations, offsets) are modelled as rationals `ℚ`.
-/

namespace NewBot

/-! ### upload_to_facebook (bot.py lines 174-209)

The body of the `for attempt in range(max_retries)` loop observes, per
attempt, one of: a successful POST whose JSON carries an `id` (return it), a
response without an `id` (log, fall through, next iteration), or an exception
(HTTP error status via `raise_for_status`, timeout, connection error - all
caught by the single bare `except Exception`).  `transient` records whether
the underlying failure was transient (timeout/5xx) or not (4xx/auth); the
Python code cannot observe the distinction, which is the point of claim C3. -/

inductive AttemptResult where
  | ok (id : String)
  | fail (transient : Bool)
  | noId
deriving DecidableEq

def AttemptResult.isOk : AttemptResult → Bool
  | .ok _ => true
  | _ => false

/-- `max_retries = 3` in `upload_to_facebook`. -/
def max_retries : Nat := 3

/-- The retry loop of `upload_to_facebook`: `fuel` iterations remain,
`attempt` is the current attempt index.  Returns the video id on the first
successful attempt, `none` when the loop exhausts. -/
def upload_loop (outcomes : Nat → AttemptResult) : Nat → Nat → Option String
  | 0, _ => none
  | fuel + 1, attempt =>
    match outcomes attempt with
    | .ok id => some id
    | _ => upload_loop outcomes fuel (attempt + 1)

/-- `upload_to_facebook`, as a function of the per-attempt outcomes. -/
def upload_to_facebook (outcomes : Nat → AttemptResult) : Option String :=
  upload_loop outcomes max_retries 0

/-- Number of attempts the loop actually performs before returning. -/
def attempts_loop (outcomes : Nat → AttemptResult) : Nat → Nat → Nat
  | 0, _ => 0
  | fuel + 1, attempt =>
    match outcomes attempt with
    | .ok _ => 1
    | _ => 1 + attempts_loop outcomes fuel (attempt + 1)

def upload_attempts (outcomes : Nat → AttemptResult) : Nat :=
  attempts_loop outcomes max_retries 0

/-! ### download_video (bot.py lines 52-83)

`size` is the observable result of the HTTP GET: `none` when the request
raised (the `except` branch returns `None` with nothing written), `some s`
when the body of `s` bytes was written to the temp file.  The written file is
threaded as the second component; the code returns `None` for a small file
WITHOUT removing it (removal happens only at run scope via
`cleanup_temp_dir`). -/

def temp_input_file : String := "input.mp4"

def download_video (size : Option Nat) (fs : List String) :
    Option String × List String :=
  match size with
  | none => (none, fs)
  | some s =>
    if s < 1000 then (none, fs ++ [temp_input_file])
    else (some temp_input_file, fs ++ [temp_input_file])

/-! ### create_vertical_short (bot.py lines 105-149)

`rc` is the transcoder outcome: `none` when `subprocess.run` raised
(e.g. `TimeoutExpired`), `some c` for a completed run with return code `c`.
`fs` is the filesystem after the transcoder step (it may or may not contain
the declared output path).  The code returns the output path iff `rc = 0`; it
never consults the filesystem and never deletes anything. -/

def short_output_file : String := "short.mp4"

def create_vertical_short (rc : Option Int) (fs : List String) :
    Option String × List String :=
  match rc with
  | some c => (if c = 0 then some short_output_file else none, fs)
  | none => (none, fs)

/-! ### random-window extraction inside create_and_upload_short
(bot.py lines 222-236)

After `get_video_duration` yields `total_duration` (`none` on ffprobe
failure), the code aborts when `not total_duration or total_duration < 60`,
else draws `start_time = random.uniform(0, total_duration - 60)` and cuts one
60-second clip.  `r ∈ [0,1]` models the uniform draw:
`random.uniform(0, m) = r * m`.  The result is the `(startOffset, duration)`
of the single clip produced, or `none`. -/

def create_and_upload_short_clip (total_duration : Option ℚ) (r : ℚ) :
    Option (ℚ × ℚ) :=
  match total_duration with
  | none => none
  | some d =>
    if d = 0 ∨ d < 60 then none
    else some (r * (d - 60), 60)

/-! ### item selection in run_scheduled_upload (bot.py lines 295-304)

`selected_url = random.choice(self.video_urls)` - a uniformly random element
of the full list, no ledger, no ordering.  `random.choice(l)` is modelled as
`l[r % len(l)]` for a random `r`; it is `none` exactly when the list is
empty (the code returns early on `if not self.video_urls`). -/

def random_choice {α : Type} (l : List α) (r : Nat) : Option α :=
  match l with
  | [] => none
  | x :: xs => some ((x :: xs).get ⟨r % (x :: xs).length, Nat.mod_lt r (Nat.succ_pos xs.length)⟩)

/-- A catalog media item as the spec describes it (`id`, `createdAt`); the
code's candidate list carries only the id (a URL string), and its selection
never reads `createdAt`. -/
structure MediaItem where
  id : String
  createdAt : Int
deriving DecidableEq

/-- The Selector of the SPEC (second definition, written from the spec's
words for the refinement comparison of claim C1): filter the items by
"not yet relayed", then return the one with minimum `createdAt` (first such
item on ties, as filter-sort-take-first would). -/
def minByCreatedAt : List MediaItem → Option MediaItem
  | [] => none
  | x :: xs =>
    match minByCreatedAt xs with
    | none => some x
    | some y => if x.createdAt ≤ y.createdAt then some x else some y

def oldest_unseen_spec (items : List MediaItem) (relayed : List String) :
    Option MediaItem :=
  minByCreatedAt (items.filter (fun it => !(relayed.contains it.id)))

/-! ### one invocation of run_scheduled_upload (bot.py lines 275-315)

`relayed` is the external-world record of items published by earlier
successful runs (the code itself keeps NO such record).  A run selects one
random URL and attempts at most one upload; on upload success the selected
item becomes published. -/

def uploads_attempted (urls : List String) (r : Nat) : Nat :=
  match random_choice urls r with
  | none => 0
  | some _ => 1

def run_once (urls : List String) (r : Nat) (success : Bool)
    (relayed : List String) : List String :=
  match random_choice urls r with
  | none => relayed
  | some u => if success then u :: relayed else relayed

/-! ### generate_hashtags (bot.py lines 151-172) -/

def base_hashtags : List String := ["#viral", "#shorts", "#trending"]

def morning_hashtags : List String :=
  ["#GoodMorning", "#MorningVibes", "#StartYourDay", "#MotivationMonday"]

def evening_hashtags : List String :=
  ["#EveningVibes", "#Unwind", "#AfterWork", "#ChillTime"]

def default_hashtags : List String :=
  ["#Daily", "#Content", "#Entertainment", "#Fun"]

def time_based : List (String × List String) :=
  [("morning", morning_hashtags), ("evening", evening_hashtags),
   ("default", default_hashtags)]

/-- `time_based.get(post_time, time_based["default"])`. -/
def time_based_get (post_time : String) : List String :=
  (List.lookup post_time time_based).getD default_hashtags

def growth_hashtags : List String :=
  ["#Explore", "#ForYou", "#Viral", "#Share", "#Like", "#Follow",
   "#Entertainment", "#Fun", "#Amazing", "#MustWatch", "#DontMiss",
   "#Awesome", "#Epic", "#Cool", "#Incredible", "#Wow"]

/-- `random.sample(l, k)` with the random draws made explicit: pick the
element at random index `rs 0`, remove it, recurse.  On the no-duplicate
lists the code samples from, removing by value (`List.erase`) coincides with
removing the chosen position, and the result is `k` distinct elements of
`l`. -/
def sample (l : List String) : Nat → (Nat → Nat) → List String
  | 0, _ => []
  | k + 1, rs =>
    if h : l = [] then []
    else
      let x := l.get ⟨rs 0 % l.length, Nat.mod_lt _ (List.length_pos.mpr h)⟩
      x :: sample (l.erase x) k (fun n => rs (n + 1))

/-- The list `selected` built by `generate_hashtags` before joining. -/
def hashtags_selected (post_time : String) (rs1 rs2 : Nat → Nat) :
    List String :=
  base_hashtags ++ sample (time_based_get post_time) 2 rs1
    ++ sample growth_hashtags 4 rs2

/-- `generate_hashtags`: `" ".join(selected)`. -/
def generate_hashtags (post_time : String) (rs1 rs2 : Nat → Nat) : String :=
  String.intercalate " " (hashtags_selected post_time rs1 rs2)

/-! ### generate_video_list.py (lines 17-31)

The script queries Drive with
`q = "'<folder>' in parents and mimeType contains 'video/'"` and
`fields = "files(id, name)"` - no `orderBy` is requested - and then writes
one URL per returned file, in the order the response lists them.  The
catalog/response is modelled as the list of files the store holds, in the
order the store returns them; the query's mime filter keeps the files whose
`mimeType` contains the substring `"video/"`. -/

structure DriveFile where
  id : String
  name : String
  mimeType : String
  createdAt : Int
deriving DecidableEq

def mime_matches (f : DriveFile) : Bool :=
  decide ("video/".toList <:+: f.mimeType.toList)

def files_list_query (catalog : List DriveFile) : List DriveFile :=
  catalog.filter mime_matches

def drive_url (id : String) : String :=
  "https://drive.google.com/uc?export=download&id=" ++ id

def generate_video_list (catalog : List DriveFile) : List String :=
  (files_list_query catalog).map (fun f => drive_url f.id)

/-- Ascending-by-`createdAt` order of a file sequence. -/
def ascending_by_createdAt : List DriveFile → Bool
  | [] => true
  | [_] => true
  | a :: b :: rest =>
    decide (a.createdAt ≤ b.createdAt) && ascending_by_createdAt (b :: rest)

/-! ### Python block structure of load_video_urls (bot.py lines 33-50)

Python's tokenizer keeps a stack of indentation levels (initially `[0]`).
A logical line indented by `i` columns is legal iff `i` is deeper than the
top of the stack (opening a block) or `i` equals some level already on the
stack (closing blocks down to it); any other `i` raises `IndentationError`
and the module fails to load.  `indent_ok` is that check; the list below is
the leading-space count of every code line of `load_video_urls` (comments
and blank lines are ignored by the tokenizer). -/

def indent_ok : List Nat → List Nat → Bool
  | _, [] => true
  | stack, i :: rest =>
    if stack.contains i then indent_ok (stack.dropWhile (fun t => t != i)) rest
    else
      match stack with
      | [] => false
      | t :: _ => if t < i then indent_ok (i :: stack) rest else false

/-- Leading-space counts of bot.py lines 33, 35-39, 42-46, 48-50 (the
`load_video_urls` method): line 37 indents its body to 12, lines 38-39 sit
at 11. -/
def load_video_urls_indents : List Nat :=
  [4, 8, 8, 12, 11, 11, 8, 12, 16, 16, 16, 8, 12, 12]

/-! ## Helper lemmas -/

theorem upload_loop_ok (outcomes : Nat → AttemptResult) (fuel attempt : Nat)
    (id : String) (h : outcomes attempt = .ok id) :
    upload_loop outcomes (fuel + 1) attempt = some id := by
  rw [upload_loop, h]

theorem upload_loop_skip (outcomes : Nat → AttemptResult) (fuel attempt : Nat)
    (h : (outcomes attempt).isOk = false) :
    upload_loop outcomes (fuel + 1) attempt =
      upload_loop outcomes fuel (attempt + 1) := by
  rw [upload_loop]
  cases e : outcomes attempt
  case ok id => rw [e] at h; simp [AttemptResult.isOk] at h
  case fail b => rfl
  case noId => rfl

theorem attempts_loop_ok (outcomes : Nat → AttemptResult) (fuel attempt : Nat)
    (id : String) (h : outcomes attempt = .ok id) :
    attempts_loop outcomes (fuel + 1) attempt = 1 := by
  rw [attempts_loop, h]

theorem attempts_loop_skip (outcomes : Nat → AttemptResult) (fuel attempt : Nat)
    (h : (outcomes attempt).isOk = false) :
    attempts_loop outcomes (fuel + 1) attempt =
      1 + attempts_loop outcomes fuel (attempt + 1) := by
  rw [attempts_loop]
  cases e : outcomes attempt
  case ok id => rw [e] at h; simp [AttemptResult.isOk] at h
  case fail b => rfl
  case noId => rfl

theorem sample_length (k : Nat) :
    ∀ (l : List String) (rs : Nat → Nat), k ≤ l.length →
      (sample l k rs).length = k := by
  induction k with
  | zero => intro l rs _; rfl
  | succ k ih =>
    intro l rs h
    have hne : l ≠ [] := by
      intro he; subst he; simp at h
    rw [sample, dif_neg hne]
    dsimp only
    rw [List.length_cons, ih _ _ ?_]
    have hx := List.length_erase_of_mem
      (l.get_mem (rs 0 % l.length) (Nat.mod_lt _ (List.length_pos.mpr hne)))
    omega

theorem sample_subset (k : Nat) :
    ∀ (l : List String) (rs : Nat → Nat) (x : String),
      x ∈ sample l k rs → x ∈ l := by
  induction k with
  | zero => intro l rs x hx; simp [sample] at hx
  | succ k ih =>
    intro l rs x hx
    by_cases hne : l = []
    · rw [sample, dif_pos hne] at hx; simp at hx
    · rw [sample, dif_neg hne] at hx
      dsimp only at hx
      rcases List.mem_cons.mp hx with h | h
      · subst h; exact l.get_mem _ _
      · exact List.mem_of_mem_erase (ih _ _ _ h)

theorem sample_nodup (k : Nat) :
    ∀ (l : List String) (rs : Nat → Nat), l.Nodup →
      (sample l k rs).Nodup := by
  induction k with
  | zero => intro l rs _; simp [sample]
  | succ k ih =>
    intro l rs hl
    by_cases hne : l = []
    · rw [sample, dif_pos hne]; simp
    · rw [sample, dif_neg hne]
      dsimp only
      refine List.nodup_cons.mpr ⟨?_, ih _ _ (hl.erase _)⟩
      intro hmem
      have hm := sample_subset k _ _ _ hmem
      rw [hl.mem_erase_iff] at hm
      exact hm.1 rfl

theorem time_based_get_cases (post_time : String) :
    time_based_get post_time = morning_hashtags ∨
      time_based_get post_time = evening_hashtags ∨
      time_based_get post_time = default_hashtags := by
  unfold time_based_get time_based
  cases h1 : (post_time == ("morning" : String))
  · cases h2 : (post_time == ("evening" : String))
    · cases h3 : (post_time == ("default" : String)) <;>
        simp [List.lookup, h1, h2, h3]
    · simp [List.lookup, h1, h2]
  · simp [List.lookup, h1]

theorem time_based_get_length (post_time : String) :
    (time_based_get post_time).length = 4 := by
  rcases time_based_get_cases post_time with h | h | h <;> rw [h] <;> rfl

theorem time_based_get_nodup (post_time : String) :
    (time_based_get post_time).Nodup := by
  rcases time_based_get_cases post_time with h | h | h <;> rw [h] <;> decide

/-! ## Claims -/

/-- C1 (counterexample): the claim "the selection returns the item with the
minimum `createdAt` among those not yet recorded as relayed" fails on the
code: with candidates `[a (createdAt 5), b (createdAt 1)]`, nothing relayed,
and random draw 0, `run_scheduled_upload`'s `random.choice` selects `a`,
while the oldest-unseen policy requires `b`. -/
theorem C1_counterexample :
    random_choice
        [({ id := "a", createdAt := 5 } : MediaItem),
         { id := "b", createdAt := 1 }] 0 ≠
      oldest_unseen_spec
        [{ id := "a", createdAt := 5 }, { id := "b", createdAt := 1 }] [] := by
  decide

/-- C1 (amended): `run_scheduled_upload` selects a uniformly random element
of the full candidate list (`l[r % len(l)]` for the random draw `r`), with no
relayed-ledger filtering and no `createdAt` ordering: every selected item is
a member of the list, every position of the list (in particular one that is
not the minimum-`createdAt` unseen item) is selected for some draw, and the
selection is empty exactly when the list is empty. -/
theorem C1_thm (l : List MediaItem) (r : Nat) :
    (∀ x, random_choice l r = some x → x ∈ l) ∧
    (random_choice l r = none ↔ l = []) ∧
    (∀ i (hi : i < l.length), random_choice l i = some (l.get ⟨i, hi⟩)) := by
  refine ⟨?_, ?_, ?_⟩
  · intro x hx
    cases l with
    | nil => simp [random_choice] at hx
    | cons a as =>
      rw [random_choice] at hx
      rw [Option.some_inj] at hx
      rw [← hx]
      exact (a :: as).get_mem _ _
  · cases l with
    | nil => simp [random_choice]
    | cons a as => simp [random_choice]
  · intro i hi
    cases l with
    | nil => simp at hi
    | cons a as =>
      rw [random_choice]
      congr 2
      exact Fin.ext (Nat.mod_eq_of_lt hi)

/-- C1 (witness): the amended theorem at the concrete counterexample input:
draw 1 on the two-item list selects the second item, which is therefore a
member of the list. -/
theorem C1_witness :
    ({ id := "b", createdAt := 1 } : MediaItem) ∈
      [({ id := "a", createdAt := 5 } : MediaItem),
       { id := "b", createdAt := 1 }] :=
  (C1_thm [⟨"a", 5⟩, ⟨"b", 1⟩] 1).1 ⟨"b", 1⟩ (by decide)

/-- C2 (counterexample): with `max_retries = 3` and every attempt failing
transiently, `upload_to_facebook` performs exactly 3 attempts and returns
`None`; it does NOT perform the `max_retries + 1 = 4` attempts the claim
requires before giving up. -/
theorem C2_counterexample :
    upload_to_facebook (fun _ => .fail true) = none ∧
    upload_attempts (fun _ => .fail true) = 3 ∧
    ¬ (max_retries + 1 ≤ upload_attempts (fun _ => .fail true)) := by
  decide

/-- C2 (amended): when the first `max_retries = 3` attempts all fail (no
attempt yields a video id), `upload_to_facebook` gives up after exactly
`max_retries` attempts - there is no extra attempt - and returns `None` (the
terminal failure outcome; the function mutates no state). -/
theorem C2_thm (outcomes : Nat → AttemptResult)
    (h : ∀ i, i < max_retries → (outcomes i).isOk = false) :
    upload_to_facebook outcomes = none ∧
    upload_attempts outcomes = max_retries := by
  have h0 := h 0 (by decide)
  have h1 := h 1 (by decide)
  have h2 := h 2 (by decide)
  constructor
  · show upload_loop outcomes 3 0 = none
    rw [show (3 : Nat) = 2 + 1 from rfl, upload_loop_skip outcomes 2 0 h0,
      upload_loop_skip outcomes 1 1 h1]
    rw [show (1 : Nat) = 0 + 1 from rfl, upload_loop_skip outcomes 0 2 h2]
    rfl
  · show attempts_loop outcomes 3 0 = 3
    rw [show (3 : Nat) = 2 + 1 from rfl, attempts_loop_skip outcomes 2 0 h0,
      attempts_loop_skip outcomes 1 1 h1]
    rw [show (1 : Nat) = 0 + 1 from rfl, attempts_loop_skip outcomes 0 2 h2]
    rfl

/-- C2 (witness): the amended theorem at the all-transient-failures input. -/
theorem C2_witness :
    upload_to_facebook (fun _ => .fail true) = none ∧
    upload_attempts (fun _ => .fail true) = max_retries :=
  C2_thm (fun _ => .fail true) (by decide)

/-- C3 (counterexample): the claim "a non-transient failure is not retried:
the operation fails immediately after the first such failure, without further
attempts" fails on the code: when attempt 0 raises a non-transient error
(4xx via `raise_for_status`) and attempt 1 succeeds, the bare
`except Exception` retries and the operation performs 2 attempts and even
returns success. -/
theorem C3_counterexample :
    upload_to_facebook
        (fun n => if n = 0 then .fail false else .ok "vid") = some "vid" ∧
    upload_attempts (fun n => if n = 0 then .fail false else .ok "vid") = 2 ∧
    upload_attempts (fun n => if n = 0 then .fail false else .ok "vid") ≠ 1 := by
  decide

/-- C3 (amended): `upload_to_facebook` treats every failure identically -
its single `except Exception` cannot distinguish transient from
non-transient errors - so a first-attempt failure with ANY transience flag is
retried: if attempt 0 fails (transient or not) and attempt 1 returns an id,
the operation returns that id after exactly 2 attempts. -/
theorem C3_thm (outcomes : Nat → AttemptResult) (b : Bool) (id : String)
    (h0 : outcomes 0 = .fail b) (h1 : outcomes 1 = .ok id) :
    upload_to_facebook outcomes = some id ∧ upload_attempts outcomes = 2 := by
  have h0' : (outcomes 0).isOk = false := by rw [h0]; rfl
  constructor
  · show upload_loop outcomes 3 0 = some id
    rw [show (3 : Nat) = 2 + 1 from rfl, upload_loop_skip outcomes 2 0 h0',
      upload_loop_ok outcomes 1 1 id h1]
  · show attempts_loop outcomes 3 0 = 2
    rw [show (3 : Nat) = 2 + 1 from rfl, attempts_loop_skip outcomes 2 0 h0',
      attempts_loop_ok outcomes 1 1 id h1]

/-- C3 (witness): the amended theorem at the concrete input where attempt 0
fails non-transiently and attempt 1 succeeds. -/
theorem C3_witness :
    upload_to_facebook (fun n => if n = 0 then .fail false else .ok "vid") =
      some "vid" ∧
    upload_attempts (fun n => if n = 0 then .fail false else .ok "vid") = 2 :=
  C3_thm (fun n => if n = 0 then .fail false else .ok "vid") false "vid"
    (by decide) (by decide)

/-- C4 (confirmed): the random-window extraction in
`create_and_upload_short`: a source shorter than the 60-second window fails
the precondition (`not total_duration or total_duration < 60`) and produces
no clip; a source of duration at least 60 produces exactly one clip whose
window is 60 seconds, starting at `random.uniform(0, duration - 60)` -
modelled as `r * (duration - 60)` for the uniform draw `r ∈ [0,1]`, which
lies in `[0, duration - 60]`. -/
theorem C4_thm (d r : ℚ) (h0 : 0 ≤ r) (h1 : r ≤ 1) :
    (d < 60 → create_and_upload_short_clip (some d) r = none) ∧
    (60 ≤ d →
      create_and_upload_short_clip (some d) r = some (r * (d - 60), 60) ∧
      0 ≤ r * (d - 60) ∧ r * (d - 60) ≤ d - 60) := by
  constructor
  · intro hd
    rw [create_and_upload_short_clip, if_pos (Or.inr hd)]
  · intro hd
    have hcond : ¬ (d = 0 ∨ d < 60) := by
      rintro (h | h) <;> linarith
    rw [create_and_upload_short_clip, if_neg hcond]
    refine ⟨rfl, mul_nonneg h0 (by linarith), ?_⟩
    have := mul_le_of_le_one_left (a := r) (b := d - 60) (by linarith) h1
    linarith

/-- C4 (witness): the theorem at duration 90 and draw 1/2: the window starts
at 15 and lasts 60, inside `[0, 30]`; and at the spec's scenario of a
45-second source the extraction would fail (45 < 60 holds vacuously here
since the instantiated duration is 90). -/
theorem C4_witness :
    ((90 : ℚ) < 60 → create_and_upload_short_clip (some 90) (1/2) = none) ∧
    ((60 : ℚ) ≤ 90 →
      create_and_upload_short_clip (some 90) (1/2) =
        some ((1/2) * (90 - 60), 60) ∧
      0 ≤ (1/2 : ℚ) * (90 - 60) ∧ (1/2 : ℚ) * (90 - 60) ≤ 90 - 60) :=
  C4_thm 90 (1/2) (by norm_num) (by norm_num)

/-- C5 (counterexample): the claim "success iff returncode = 0 AND the
declared output path exists" fails on the code: with returncode 0 and a
filesystem in which the declared output path does not exist,
`create_vertical_short` still reports success (returns the output path). -/
theorem C5_counterexample :
    (create_vertical_short (some 0) []).1 = some short_output_file ∧
    short_output_file ∉ ([] : List String) := by
  constructor
  · rfl
  · decide

/-- C5 (amended): `create_vertical_short` reports success iff the transcoder
return code is 0 - it never consults the filesystem, so the declared output
path's existence is not part of the success condition - on any other outcome
(nonzero return code or a raised exception such as a timeout) it returns
`None` without ledger mutation, and it deletes nothing: the filesystem,
including any partial output, is returned unchanged (partial output is only
removed later by the run-level `cleanup_temp_dir`). -/
theorem C5_thm (rc : Option Int) (fs : List String) :
    ((create_vertical_short rc fs).1 = some short_output_file ↔
      rc = some 0) ∧
    (rc ≠ some 0 → (create_vertical_short rc fs).1 = none) ∧
    (create_vertical_short rc fs).2 = fs := by
  rcases rc with _ | c
  · refine ⟨by simp [create_vertical_short], fun _ => rfl, rfl⟩
  · by_cases hc : c = 0
    · subst hc
      exact ⟨by simp [create_vertical_short], fun h => absurd rfl h, rfl⟩
    · refine ⟨?_, fun _ => by simp [create_vertical_short, hc], rfl⟩
      simp [create_vertical_short, hc]

/-- C5 (witness): the amended theorem at a nonzero return code with a
partial output file present: the result is `None` and the partial file is
still there. -/
theorem C5_witness :
    ((create_vertical_short (some 1) [short_output_file]).1 =
        some short_output_file ↔ (some 1 : Option Int) = some 0) ∧
    ((some 1 : Option Int) ≠ some 0 →
      (create_vertical_short (some 1) [short_output_file]).1 = none) ∧
    (create_vertical_short (some 1) [short_output_file]).2 =
      [short_output_file] :=
  C5_thm (some 1) [short_output_file]

/-- C6 (counterexample): the claim's "the temporary downloaded file is
removed" fails on the code: a 500-byte download yields the failure outcome
`None`, but the temp file is still present afterwards (`download_video` has
no removal on this path; the file is only removed later by
`cleanup_temp_dir`). -/
theorem C6_counterexample :
    (download_video (some 500) []).1 = none ∧
    temp_input_file ∈ (download_video (some 500) []).2 := by
  constructor
  · rfl
  · decide

/-- C6 (amended): any downloaded artifact below the 1000-byte threshold
makes `download_video` return the failure outcome `None` with no
Ledger/Cursor mutation (the function touches no persisted state), but the
temporary file is NOT removed by the fetch itself: the filesystem afterwards
still contains it. -/
theorem C6_thm (s : Nat) (fs : List String) (h : s < 1000) :
    download_video (some s) fs = (none, fs ++ [temp_input_file]) := by
  rw [download_video, if_pos h]

/-- C6 (witness): the amended theorem at a 500-byte download over an empty
filesystem. -/
theorem C6_witness :
    download_video (some 500) [] = (none, [] ++ [temp_input_file]) :=
  C6_thm 500 [] (by decide)

/-- C7 (code_bug): the claim "the top-level entry point never terminates
abnormally on an expected failure" is the spec's clear intent (`main` wraps
everything in `try/except`), but bot.py cannot even be loaded: inside
`load_video_urls`, line 37 opens a block at indentation 12 while lines 38-39
sit at indentation 11, which matches no enclosing indentation level, so
Python's tokenizer raises `IndentationError` and every invocation of the
program terminates abnormally before `main` runs.  `indent_ok` is the
tokenizer's indentation-stack check; it rejects the method's indentation
profile. -/
theorem C7_thm :
    indent_ok [0] load_video_urls_indents = false := by
  decide

/-- C8 (counterexample): the claim "the listing returns the candidate items
ascending by `createdAt`" fails on the code: `generate_video_list.py`
requests no `orderBy` and writes the files in response order, so a store
returning `[a (createdAt 5), b (createdAt 1)]` (both video files) produces
an output sequence that is not ascending by `createdAt`. -/
theorem C8_counterexample :
    ascending_by_createdAt (files_list_query
      [{ id := "a", name := "A", mimeType := "video/mp4", createdAt := 5 },
       { id := "b", name := "B", mimeType := "video/mp4", createdAt := 1 }])
      = false := by
  decide

/-- C8 (amended): the listing keeps exactly the items whose `mimeType`
matches the query's filter (`mimeType contains 'video/'`), and emits them in
the order the store's response lists them (the filtered sequence is a
sublist of the response, so relative response order - not `createdAt`
order - is preserved); the written output is one download URL per kept file
in that same order. -/
theorem C8_thm (catalog : List DriveFile) :
    List.Sublist (files_list_query catalog) catalog ∧
    (∀ f ∈ files_list_query catalog, mime_matches f = true) ∧
    (∀ f ∈ catalog, mime_matches f = true → f ∈ files_list_query catalog) ∧
    generate_video_list catalog =
      (files_list_query catalog).map (fun f => drive_url f.id) :=
  ⟨List.filter_sublist catalog, fun _ hf => List.of_mem_filter hf,
   fun _ hf hm => List.mem_filter.mpr ⟨hf, hm⟩, rfl⟩

/-- C8 (witness): the amended theorem at a concrete catalog: the video file
is kept by the query even though a non-video file precedes it. -/
theorem C8_witness :
    ({ id := "b", name := "B", mimeType := "video/mp4", createdAt := 1 } :
        DriveFile) ∈
      files_list_query
        [{ id := "a", name := "A", mimeType := "image/png", createdAt := 5 },
         { id := "b", name := "B", mimeType := "video/mp4", createdAt := 1 }] :=
  (C8_thm
      [{ id := "a", name := "A", mimeType := "image/png", createdAt := 5 },
       { id := "b", name := "B", mimeType := "video/mp4", createdAt := 1 }]).2.2.1
    { id := "b", name := "B", mimeType := "video/mp4", createdAt := 1 }
    (by decide) (by decide)

/-- C9 (counterexample): the claim "the item selected has not been published
by any earlier successful run" fails on the code: with the single-URL list
`["u"]`, a first successful run publishes `"u"`, and the next invocation's
`random.choice` selects `"u"` again - the code keeps no record of published
items. -/
theorem C9_counterexample :
    random_choice ["u"] 0 = some "u" ∧ "u" ∈ run_once ["u"] 0 true [] := by
  decide

/-- C9 (amended): each invocation attempts at most one upload (zero when the
URL list is empty, one otherwise), but the selected item is drawn at random
from the full list without consulting any record of earlier publications:
the run's effect is exactly "publish the randomly selected item on success,
nothing otherwise", regardless of what was published before. -/
theorem C9_thm (urls : List String) (r : Nat) (success : Bool)
    (relayed : List String) :
    uploads_attempted urls r ≤ 1 ∧
    (random_choice urls r = none → run_once urls r success relayed = relayed) ∧
    (∀ u, random_choice urls r = some u →
      run_once urls r success relayed =
        if success then u :: relayed else relayed) := by
  refine ⟨?_, ?_, ?_⟩
  · unfold uploads_attempted
    cases e : random_choice urls r <;> simp
  · intro he
    unfold run_once
    rw [he]
  · intro u hu
    unfold run_once
    rw [hu]

/-- C9 (witness): the amended theorem at the counterexample's trace: the
successful run over `["u"]` records exactly the selected item. -/
theorem C9_witness :
    run_once ["u"] 0 true [] = if true then "u" :: ([] : List String) else [] :=
  (C9_thm ["u"] 0 true []).2.2 "u" (by decide)

/-- C10 (confirmed): for every `post_time` string and every pair of random
streams, `generate_hashtags` totally succeeds and returns the space-joining
of a 9-element hashtag list: the 3 fixed base hashtags, then 2 distinct
hashtags from the time-based list for `post_time` (the `"default"` list when
`post_time` is neither `"morning"` nor `"evening"`), then 4 distinct
hashtags from the growth list. -/
theorem C10_thm (post_time : String) (rs1 rs2 : Nat → Nat) :
    generate_hashtags post_time rs1 rs2 =
      String.intercalate " " (hashtags_selected post_time rs1 rs2) ∧
    (hashtags_selected post_time rs1 rs2).length = 9 ∧
    ∃ t g, hashtags_selected post_time rs1 rs2 = base_hashtags ++ t ++ g ∧
      t.length = 2 ∧ t.Nodup ∧ (∀ x ∈ t, x ∈ time_based_get post_time) ∧
      g.length = 4 ∧ g.Nodup ∧ (∀ x ∈ g, x ∈ growth_hashtags) := by
  have htl := sample_length 2 (time_based_get post_time) rs1
    (by simp [time_based_get_length])
  have hgl := sample_length 4 growth_hashtags rs2 (by decide)
  refine ⟨rfl, ?_, sample (time_based_get post_time) 2 rs1,
    sample growth_hashtags 4 rs2, rfl, htl,
    sample_nodup 2 _ rs1 (time_based_get_nodup post_time),
    fun x hx => sample_subset 2 _ rs1 x hx, hgl,
    sample_nodup 4 _ rs2 (by decide),
    fun x hx => sample_subset 4 _ rs2 x hx⟩
  simp [hashtags_selected, base_hashtags, htl, hgl]

/-- C10 (witness): the theorem at `post_time = "manual"` (the value
`run_scheduled_upload` passes outside the two posting hours, exercising the
default fallback) and the constant-zero random streams. -/
theorem C10_witness :
    generate_hashtags "manual" (fun _ => 0) (fun _ => 0) =
      String.intercalate " " (hashtags_selected "manual" (fun _ => 0)
        (fun _ => 0)) ∧
    (hashtags_selected "manual" (fun _ => 0) (fun _ => 0)).length = 9 ∧
    ∃ t g, hashtags_selected "manual" (fun _ => 0) (fun _ => 0) =
        base_hashtags ++ t ++ g ∧
      t.length = 2 ∧ t.Nodup ∧ (∀ x ∈ t, x ∈ time_based_get "manual") ∧
      g.length = 4 ∧ g.Nodup ∧ (∀ x ∈ g, x ∈ growth_hashtags) :=
  C10_thm "manual" (fun _ => 0) (fun _ => 0)

end NewBot
